import Mathlib

/-!
Verification of the repyblik client (token lifecycle manager and
incremental synchronization engine) against its specification.

The embedding models `src/repyblik/cli.py` and `src/repyblik/api.py`
(and the legacy `src/repyblik/token.py`).  Timestamps are integers
(seconds); external library parsing (pendulum) is modelled by tagging
each piece of text with whether it parses and, when it does, to which
timestamp.  Python exceptions are modelled by explicit result
constructors; a `raise` that escapes the function becomes an error-like
constructor, a normal `return` a non-error one.

The file is organised as definitions first (the embedding of the
source), then theorems.
-/

namespace Repyblik

/-! ## Token lifecycle: the confirmation poll loop of `token_get` (cli.py)

`POLL_FREQUENCY = pendulum.duration(seconds=3)`.

The progress bar is built with
`length = signin_data.expiration_date.diff() // POLL_FREQUENCY`,
a timedelta floor division computed once before the loop; iterating the
bar then runs the body at most `length` times.  Each iteration sleeps
for the poll frequency and then calls `api.get_my_id()`; a non-null
result breaks out of the loop.  The `for ... else` branch prints
"Token could not be verified" when no break happened, but the code then
falls through in every case: it prints "Token confirmed" and writes the
token file unconditionally.
-/

/-- `POLL_FREQUENCY` in seconds (cli.py line 12). -/
def POLL_FREQUENCY : Nat := 3

/-- The `for _ in bar: sleep; if api.get_my_id(): break` loop.
`probe k` is the result of the (k+1)-th `get_my_id` call (`none` models a
null identity, i.e. not yet confirmed).  `fuel` is the number of bar
ticks still available and `k` the number of probes already performed.
Returns (whether a probe confirmed, total number of probes performed). -/
def pollLoop (probe : Nat → Option String) : Nat → Nat → Bool × Nat
  | 0, k => (false, k)
  | fuel + 1, k =>
    if (probe k).isSome then (true, k + 1)
    else pollLoop probe fuel (k + 1)

/-- Observable outcome of the wait-and-persist part of `token_get`
(cli.py lines 61-82). -/
structure TokenGetOutcome where
  probes : Nat
  confirmedByProbe : Bool
  timeoutMessagePrinted : Bool
  confirmedMessagePrinted : Bool
  tokenFileWritten : Option String
  deriving DecidableEq, Repr

/-- The confirmation wait of `token_get` (cli.py lines 66-82), for a
challenge whose expiry lies `w` seconds in the future when the progress
bar is created, with `tok` the session secret held by the api object.
The bar length is the floor division `w / POLL_FREQUENCY`, computed once
before the loop.  After the loop the code prints "Token confirmed" and
writes the token file on every path: the `else:` branch only echoes
"Token could not be verified" and does not return or raise. -/
def token_get (w : Nat) (probe : Nat → Option String) (tok : String) :
    TokenGetOutcome :=
  let len := w / POLL_FREQUENCY
  let r := pollLoop probe len 0
  { probes := r.2
    confirmedByProbe := r.1
    timeoutMessagePrinted := !r.1
    confirmedMessagePrinted := true
    tokenFileWritten := some tok }

/-! ## Incremental synchronization engine: `articles_fetch` (cli.py lines 161-200)

The checkpoint file `directory / ".last"` holds one RFC3339 timestamp
string.  Reading it can fail with `FileNotFoundError` or
`PermissionError` (both caught, selecting bootstrap mode); a present,
readable file whose contents `pendulum.parse` rejects raises a parser
error that no handler catches.  We model the file in the four states the
code distinguishes.  `stamp t` is a file whose text parses to timestamp
`t`; on success the code writes `articles[0].publication_date` back via
`to_rfc3339_string`, which `pendulum.parse` round-trips, so the written
file is again a `stamp`. -/

/-- The four states of the checkpoint file the code distinguishes. -/
inductive CheckpointFile
  | absent
  | unreadable
  | stamp (t : Int)
  | garbage (raw : String)
  deriving DecidableEq, Repr

/-- Local filesystem state touched by `articles_fetch`: the checkpoint
file and the PDF files present in the destination directory. -/
structure FsState where
  checkpointFile : CheckpointFile
  writtenFiles : List String
  deriving DecidableEq, Repr

/-- `ArticleData` (api.py): title, CDN path and publication timestamp. -/
structure ArticleData where
  title : String
  path : String
  publication_date : Int
  deriving DecidableEq, Repr

/-- The two article queries the engine can send to the gateway:
`get_articles_since` with a lower bound, or `get_last_articles first`. -/
inductive Query
  | since (t : Int)
  | lastN (n : Nat)
  deriving DecidableEq, Repr

/-- The Remote Gateway as seen by `articles_fetch`: the identity probe
result and the responses to the two article queries. -/
structure Gateway where
  my_id : Option String
  articles_since : Int → List ArticleData
  last_articles : Nat → List ArticleData

/-- Response of the gateway to a query. -/
def Gateway.run (gw : Gateway) : Query → List ArticleData
  | .since t => gw.articles_since t
  | .lastN n => gw.last_articles n

/-- How an `articles_fetch` invocation ends.  `loginFailed`,
`parseError` and `downloadFailed` model uncaught Python raises
(`click.BadArgumentUsage`, pendulum's parser error, and the CDN
`raise_for_status` respectively); the others are normal returns
(`noNewArticles` prints "No new articles published since ...",
`noArticlesFound` prints "No articles found, something is probably
wrong"). -/
inductive FetchOutcome
  | loginFailed
  | noNewArticles (last : Int)
  | noArticlesFound
  | parseError (raw : String)
  | downloadFailed (path : String)
  | done
  deriving DecidableEq, Repr

/-- Whether the outcome corresponds to an escaping Python exception
(a `raise` in the source) rather than a normal `return`. -/
def FetchOutcome.raisesException : FetchOutcome → Bool
  | .loginFailed => true
  | .parseError _ => true
  | .downloadFailed _ => true
  | _ => false

/-- Result of a run: the outcome, the final filesystem state, the
article queries sent to the gateway, and the CDN download calls made
(article paths, in order). -/
structure FetchResult where
  outcome : FetchOutcome
  state : FsState
  queries : List Query
  cdnCalls : List String
  deriving DecidableEq, Repr

/-- Destination file name derived from an article
(cli.py line 193). -/
def destinationName (a : ArticleData) : String :=
  toString a.publication_date ++ " - " ++ a.title ++ ".pdf"

/-- The download loop (cli.py lines 192-198).  `ok p` says whether the
CDN download of path `p` succeeds; on success the destination file is
written, on failure `raise_for_status` aborts the loop before the
destination file is opened.  Returns (path of the first failing
download, if any; files written; CDN calls made). -/
def downloadAll (ok : String → Bool) :
    List ArticleData → Option String × List String × List String
  | [] => (none, [], [])
  | a :: rest =>
    if ok a.path then
      let r := downloadAll ok rest
      (r.1, destinationName a :: r.2.1, a.path :: r.2.2)
    else (some a.path, [], [a.path])

/-- The fetch-and-persist phase run on a non-empty batch `a0 :: rest`
(cli.py lines 188-200): download every article in order; only if all
downloads succeed, write the checkpoint file with the publication date
of the first article of the batch. -/
def runSync (ok : String → Bool) (a0 : ArticleData) (rest : List ArticleData)
    (s : FsState) (qs : List Query) : FetchResult :=
  match downloadAll ok (a0 :: rest) with
  | (some p, files, calls) =>
    { outcome := .downloadFailed p
      state := { s with writtenFiles := s.writtenFiles ++ files }
      queries := qs
      cdnCalls := calls }
  | (none, files, calls) =>
    { outcome := .done
      state := { checkpointFile := .stamp a0.publication_date
                 writtenFiles := s.writtenFiles ++ files }
      queries := qs
      cdnCalls := calls }

/-- `articles_fetch` (cli.py lines 161-200).  The identity probe is
checked first; then the checkpoint file is read and parsed inside a
`try` whose `except` clause catches only `FileNotFoundError` and
`PermissionError` — an unparseable file escapes as a parser error.  A
parsed checkpoint `t` leads to `get_articles_since (t + 1 second)`; a
missing or unreadable file leads to `get_last_articles first`.  An
empty batch returns without further effect in either mode. -/
def articles_fetch (gw : Gateway) (ok : String → Bool) (first : Nat)
    (s : FsState) : FetchResult :=
  match gw.my_id with
  | none => { outcome := .loginFailed, state := s, queries := [], cdnCalls := [] }
  | some _ =>
    match s.checkpointFile with
    | .garbage raw =>
      { outcome := .parseError raw, state := s, queries := [], cdnCalls := [] }
    | .stamp t =>
      match gw.articles_since (t + 1) with
      | [] => { outcome := .noNewArticles t, state := s
                queries := [.since (t + 1)], cdnCalls := [] }
      | a :: rest => runSync ok a rest s [.since (t + 1)]
    | .absent | .unreadable =>
      match gw.last_articles first with
      | [] => { outcome := .noArticlesFound, state := s
                queries := [.lastN first], cdnCalls := [] }
      | a :: rest => runSync ok a rest s [.lastN first]

/-- The query scope the run derives from the checkpoint file state, when
it derives one at all (a garbage checkpoint aborts before any query). -/
def derivedQuery (s : FsState) (first : Nat) : Option Query :=
  match s.checkpointFile with
  | .stamp t => some (.since (t + 1))
  | .garbage _ => none
  | .absent | .unreadable => some (.lastN first)

/-! ## The API client: `RepublikApi` (api.py) and `TokenDispenser` (token.py)

`request_token` posts the signIn mutation and then, in order: checks the
HTTP status (`raise_for_status`), extracts the `connect.sid` cookie
(KeyError mapped to `TokenFetchError`), extracts `data.signIn` from the
body (KeyError mapped to `TokenFetchError`), parses `expiresAt`
(a missing key raises KeyError and an unparseable value raises
pendulum's parser error, both uncaught), constructs
`TokenType(signin_data["tokenType"])` inside a `try` that catches only
`KeyError` — so a *present but unrecognized* token kind raises an
uncaught `ValueError` — then stores the cookie via `_set_token` and
builds the result (a missing `phrase` key raises KeyError, uncaught). -/

/-- A piece of text together with whether `pendulum.parse` accepts it
and, when it does, the timestamp it denotes. -/
inductive PendulumText
  | valid (t : Int)
  | invalid (raw : String)
  deriving DecidableEq, Repr

/-- `pendulum.parse` on a modelled text. -/
def parsePendulum : PendulumText → Option Int
  | .valid t => some t
  | .invalid _ => none

/-- `TokenType` (api.py): the two recognized confirmation channels. -/
inductive TokenType
  | App
  | Email
  deriving DecidableEq, Repr

/-- `TokenType(value)` by-value enum lookup (api.py): `some` exactly on
the two recognized wire strings. -/
def TokenType.ofValue (s : String) : Option TokenType :=
  if s = "APP" then some .App
  else if s = "EMAIL_TOKEN" then some .Email
  else none

/-- `TOKEN_STRING_TO_ENUM` (token.py): the dict from wire strings to
token types; a lookup of any other string raises KeyError. -/
def TOKEN_STRING_TO_ENUM (s : String) : Option TokenType :=
  if s = "APP" then some .App
  else if s = "EMAIL_TOKEN" then some .Email
  else none

/-- `TokenRequestData` (api.py / token.py). -/
structure TokenRequestData where
  verification_phrase : String
  token_type : TokenType
  expiration_date : Int
  deriving DecidableEq, Repr

/-- The Python exceptions `request_token` / `request` can raise.
`transportError` covers exceptions from `requests.post` and the
`HTTPError` from `raise_for_status`; `keyError`, `parserError` and
`valueError` are raises that escape uncaught; `runtimeError` is the
`RuntimeError` from `_verify_token_available`. -/
inductive PyError
  | transportError
  | tokenFetchError (msg : String)
  | keyError
  | parserError
  | valueError
  | runtimeError
  deriving DecidableEq, Repr

/-- The gateway's response to the signIn mutation, as the client
observes it: transport failure, HTTP status, the session cookie, and
the optional body fields. -/
structure SignInResponse where
  transportFail : Bool
  statusOk : Bool
  connectSid : Option String
  hasSignInData : Bool
  phrase : Option String
  expiresAt : Option PendulumText
  tokenType : Option String
  deriving DecidableEq, Repr

/-- `RepublikApi` state: the held session secret (`""` when unset, as
`__init__` leaves it). -/
structure RepublikApi where
  _token : String
  deriving DecidableEq, Repr

/-- The `token` property (api.py lines 95-98): `_verify_token_available`
raises `RuntimeError` when no secret is held, otherwise the held secret
is returned — confirmation by an identity probe plays no role. -/
def RepublikApi.token (api : RepublikApi) : Except PyError String :=
  if api._token = "" then .error .runtimeError else .ok api._token

/-- `RepublikApi.request_token` (api.py lines 55-93).  Returns the api
state after the call (the cookie is stored by `_set_token` just before
the result is built) together with the outcome. -/
def RepublikApi.request_token (api : RepublikApi) (resp : SignInResponse) :
    RepublikApi × Except PyError TokenRequestData :=
  if resp.transportFail then (api, .error .transportError)
  else if resp.statusOk = false then (api, .error .transportError)
  else
    match resp.connectSid with
    | none => (api, .error (.tokenFetchError "connect.sid"))
    | some tok =>
      if resp.hasSignInData = false then
        (api, .error (.tokenFetchError "signIn"))
      else
        match resp.expiresAt with
        | none => (api, .error .keyError)
        | some ts =>
          match parsePendulum ts with
          | none => (api, .error .parserError)
          | some expiration =>
            match resp.tokenType with
            | none => (api, .error (.tokenFetchError "tokenType"))
            | some k =>
              match TokenType.ofValue k with
              | none => (api, .error .valueError)
              | some tt =>
                match resp.phrase with
                | none => ({ _token := tok }, .error .keyError)
                | some ph =>
                  ({ _token := tok },
                    .ok { verification_phrase := ph
                          token_type := tt
                          expiration_date := expiration })

/-- `TokenDispenser` state (token.py): the held secret, `None`
initially. -/
structure TokenDispenser where
  _token : Option String
  deriving DecidableEq, Repr

/-- `TokenDispenser.request` (token.py lines 40-76).  Differs from
`RepublikApi.request_token` in two ways: the cookie is stored as soon as
it is extracted, and the token kind is looked up in the
`TOKEN_STRING_TO_ENUM` dict, whose KeyError — raised both for a missing
key and for an unrecognized value — is caught and mapped to
`TokenFetchError`. -/
def TokenDispenser.request (d : TokenDispenser) (resp : SignInResponse) :
    TokenDispenser × Except PyError TokenRequestData :=
  if resp.transportFail then (d, .error .transportError)
  else if resp.statusOk = false then (d, .error .transportError)
  else
    match resp.connectSid with
    | none => (d, .error (.tokenFetchError "connect.sid"))
    | some tok =>
      let d2 : TokenDispenser := { _token := some tok }
      if resp.hasSignInData = false then
        (d2, .error (.tokenFetchError "signIn"))
      else
        match resp.expiresAt with
        | none => (d2, .error .keyError)
        | some ts =>
          match parsePendulum ts with
          | none => (d2, .error .parserError)
          | some expiration =>
            match resp.tokenType with
            | none => (d2, .error (.tokenFetchError "tokenType"))
            | some k =>
              match TOKEN_STRING_TO_ENUM k with
              | none => (d2, .error (.tokenFetchError "tokenType"))
              | some tt =>
                match resp.phrase with
                | none => (d2, .error .keyError)
                | some ph =>
                  (d2,
                    .ok { verification_phrase := ph
                          token_type := tt
                          expiration_date := expiration })

/-- Whether an outcome is a raised `TokenFetchError`. -/
def isTokenFetchError : Except PyError TokenRequestData → Bool
  | .error (.tokenFetchError _) => true
  | _ => false

/-! ## Concrete collaborators used to instantiate the theorems -/

/-- A gateway with a logged-in member and empty article responses. -/
def gwEmpty : Gateway :=
  { my_id := some "member"
    articles_since := fun _ => []
    last_articles := fun _ => [] }

/-- A fixed article used in concrete runs. -/
def articleA : ArticleData :=
  { title := "a", path := "/p/a", publication_date := 7 }

/-- A gateway whose since-query returns one article published exactly at
the query's lower bound, and whose last-N query returns `articleA`. -/
def gwOne : Gateway :=
  { my_id := some "member"
    articles_since := fun q => [{ title := "a", path := "/p/a", publication_date := q }]
    last_articles := fun _ => [articleA] }

/-- A download predicate under which every CDN fetch succeeds. -/
def okAll : String → Bool := fun _ => true

/-- A fresh api object, before any challenge request. -/
def apiFresh : RepublikApi := { _token := "" }

/-- A fully well-formed signIn response carrying the session secret. -/
def respGood : SignInResponse :=
  { transportFail := false
    statusOk := true
    connectSid := some "secret"
    hasSignInData := true
    phrase := some "magic words"
    expiresAt := some (.valid 100)
    tokenType := some "APP" }

/-- A response that is well-formed except that its token kind string is
not one of the recognized values. -/
def respBogusKind : SignInResponse :=
  { respGood with tokenType := some "BOGUS" }

/-- A response that is well-formed except that the session-secret cookie
is missing. -/
def respNoCookie : SignInResponse :=
  { respGood with connectSid := none }

/-! ## Lemmas about the poll loop -/

/-- The loop performs at most as many probes as it has fuel. -/
theorem pollLoop_probes_le (probe : Nat → Option String) :
    ∀ fuel k, (pollLoop probe fuel k).2 ≤ k + fuel := by
  intro fuel
  induction fuel with
  | zero => intro k; simp [pollLoop]
  | succ n ih =>
    intro k
    simp only [pollLoop]
    split
    · omega
    · have h := ih (k + 1)
      omega

/-! ## Claim theorems for the token lifecycle manager -/

/-- Claim C1 (code bug evaluation): with a 5-second window and a probe
that never returns a non-null identity, `token_get` performs its probes,
prints the timeout message, but then still prints "Token confirmed" and
persists the unconfirmed secret to the token file. -/
theorem token_get_timeout_persists_token :
    token_get 5 (fun _ => none) "secret" =
      { probes := 1
        confirmedByProbe := false
        timeoutMessagePrinted := true
        confirmedMessagePrinted := true
        tokenFileWritten := some "secret" } := by
  rfl

/-- Claim C2 (counterexample): a 5-second window with a 3-second interval
and an always-null probe yields exactly 1 probe attempt, not 2: the bar
length is the floor division 5 // 3 = 1, not the ceiling. -/
theorem token_get_five_three_not_two_probes :
    (token_get 5 (fun _ => none) "t").probes = 1 ∧
    (token_get 5 (fun _ => none) "t").probes ≠ 2 := by
  constructor <;> decide

/-- Claim C2 (amended): the confirmation loop performs at most
floor(w / 3) probe attempts — hence never more than ceil(w / 3) — and the
bound is independent of the probe results (computed once before the loop
starts); a 5-second window with an always-null probe yields exactly 1
probe attempt. -/
theorem token_get_probe_bound :
    (∀ w probe tok, (token_get w probe tok).probes ≤ w / POLL_FREQUENCY) ∧
    (∀ w, w / POLL_FREQUENCY ≤ (w + POLL_FREQUENCY - 1) / POLL_FREQUENCY) ∧
    (token_get 5 (fun _ => none) "x").probes = 1 := by
  refine ⟨?_, ?_, by decide⟩
  · intro w probe tok
    have h := pollLoop_probes_le probe (w / POLL_FREQUENCY) 0
    simpa [token_get] using h
  · intro w
    exact Nat.div_le_div_right (by show w ≤ w + 3 - 1; omega)

/-- Claim C2 (amended) witness: the probe bound instantiated at a
7-second window. -/
theorem token_get_probe_bound_witness :
    (token_get 7 (fun _ => none) "z").probes ≤ 7 / POLL_FREQUENCY :=
  token_get_probe_bound.1 7 (fun _ => none) "z"

/-! ## Lemmas about the download loop and the sync phase -/

/-- The download loop reports no failure exactly when every download in
the batch succeeds. -/
theorem downloadAll_fst_eq_none_iff (ok : String → Bool)
    (l : List ArticleData) :
    (downloadAll ok l).1 = none ↔ ∀ a ∈ l, ok a.path = true := by
  induction l with
  | nil => simp [downloadAll]
  | cons a rest ih =>
    by_cases h : ok a.path = true
    · simp [downloadAll, h, ih]
    · simp only [downloadAll, if_neg h]
      constructor
      · intro hc; exact absurd hc (by simp)
      · intro hall; exact absurd (hall a (List.mem_cons_self a rest)) h

/-- If every download in the batch succeeds, the sync phase ends with a
normal return and writes the checkpoint with the first article's
publication date. -/
theorem runSync_all_ok (ok : String → Bool) (a0 : ArticleData)
    (rest : List ArticleData) (s : FsState) (qs : List Query)
    (h : ∀ x ∈ a0 :: rest, ok x.path = true) :
    (runSync ok a0 rest s qs).outcome = .done ∧
    (runSync ok a0 rest s qs).state.checkpointFile
      = .stamp a0.publication_date := by
  have hnone : (downloadAll ok (a0 :: rest)).1 = none :=
    (downloadAll_fst_eq_none_iff ok _).mpr h
  rcases hd : downloadAll ok (a0 :: rest) with ⟨f, files, calls⟩
  rw [hd] at hnone
  simp only at hnone
  subst hnone
  simp [runSync, hd]

/-- If some download in the batch fails, the sync phase aborts with a
download failure and leaves the checkpoint file untouched. -/
theorem runSync_not_all_ok (ok : String → Bool) (a0 : ArticleData)
    (rest : List ArticleData) (s : FsState) (qs : List Query)
    (h : ¬ ∀ x ∈ a0 :: rest, ok x.path = true) :
    (∃ p, (runSync ok a0 rest s qs).outcome = .downloadFailed p) ∧
    (runSync ok a0 rest s qs).state.checkpointFile = s.checkpointFile := by
  have hsome : (downloadAll ok (a0 :: rest)).1 ≠ none := by
    intro hc
    exact h ((downloadAll_fst_eq_none_iff ok _).mp hc)
  rcases hd : downloadAll ok (a0 :: rest) with ⟨f, files, calls⟩
  rw [hd] at hsome
  simp only at hsome
  rcases f with _ | p
  · exact absurd rfl hsome
  · exact ⟨⟨p, by simp [runSync, hd]⟩, by simp [runSync, hd]⟩

/-- When the probe succeeds, a scope is derived and the gateway returns
a non-empty batch, `articles_fetch` is exactly the sync phase on that
batch. -/
theorem articles_fetch_eq_runSync (gw : Gateway) (ok : String → Bool)
    (first : Nat) (s : FsState) (i : String) (q : Query)
    (a : ArticleData) (rest : List ArticleData)
    (hid : gw.my_id = some i)
    (hq : derivedQuery s first = some q)
    (hbatch : gw.run q = a :: rest) :
    articles_fetch gw ok first s = runSync ok a rest s [q] := by
  cases hcp : s.checkpointFile with
  | stamp t =>
    have hq2 : q = Query.since (t + 1) := by
      simp [derivedQuery, hcp] at hq; exact hq.symm
    subst hq2
    have hb : gw.articles_since (t + 1) = a :: rest := hbatch
    simp [articles_fetch, hid, hcp, hb]
  | garbage raw => simp [derivedQuery, hcp] at hq
  | absent =>
    have hq2 : q = Query.lastN first := by
      simp [derivedQuery, hcp] at hq; exact hq.symm
    subst hq2
    have hb : gw.last_articles first = a :: rest := hbatch
    simp [articles_fetch, hid, hcp, hb]
  | unreadable =>
    have hq2 : q = Query.lastN first := by
      simp [derivedQuery, hcp] at hq; exact hq.symm
    subst hq2
    have hb : gw.last_articles first = a :: rest := hbatch
    simp [articles_fetch, hid, hcp, hb]

/-! ## Claim theorems for the synchronization engine -/

/-- Claim C3: on a non-empty batch, `articles_fetch` has exactly two
possible endings — if every download succeeds it finishes normally and
the checkpoint file now holds the first descriptor's publication date;
if any download fails it aborts with a download failure and the
checkpoint file is exactly what it was before the run. -/
theorem sync_all_or_nothing (gw : Gateway) (ok : String → Bool)
    (first : Nat) (s : FsState) (i : String) (q : Query)
    (a : ArticleData) (rest : List ArticleData)
    (hid : gw.my_id = some i)
    (hq : derivedQuery s first = some q)
    (hbatch : gw.run q = a :: rest) :
    ((∀ x ∈ a :: rest, ok x.path = true) →
      (articles_fetch gw ok first s).outcome = .done ∧
      (articles_fetch gw ok first s).state.checkpointFile
        = .stamp a.publication_date) ∧
    ((¬ ∀ x ∈ a :: rest, ok x.path = true) →
      (∃ p, (articles_fetch gw ok first s).outcome = .downloadFailed p) ∧
      (articles_fetch gw ok first s).state.checkpointFile
        = s.checkpointFile) := by
  have he := articles_fetch_eq_runSync gw ok first s i q a rest hid hq hbatch
  constructor
  · intro hall
    rw [he]
    exact runSync_all_ok ok a rest s [q] hall
  · intro hfail
    rw [he]
    exact runSync_not_all_ok ok a rest s [q] hfail

/-- Claim C3 witness: a concrete one-article batch where every download
succeeds ends in `done` with the checkpoint set to that article's
publication date. -/
theorem sync_all_or_nothing_witness :
    (articles_fetch gwOne okAll 10 ⟨.stamp 5, []⟩).outcome = .done ∧
    (articles_fetch gwOne okAll 10 ⟨.stamp 5, []⟩).state.checkpointFile
      = .stamp 6 := by
  have h := sync_all_or_nothing gwOne okAll 10 ⟨.stamp 5, []⟩ "member"
    (.since 6) { title := "a", path := "/p/a", publication_date := 6 } []
    rfl rfl rfl
  exact h.1 (fun x _ => rfl)

/-- Claim C6 (code bug evaluation): with a present but unparseable
checkpoint file, `articles_fetch` aborts with an uncaught parser error
instead of falling back to the bootstrap query; with the file absent it
does fall back (and here reports an empty bootstrap batch). -/
theorem garbage_checkpoint_aborts :
    (articles_fetch gwEmpty okAll 10 ⟨.garbage "notatimestamp", []⟩).outcome
      = .parseError "notatimestamp" ∧
    (articles_fetch gwEmpty okAll 10 ⟨.garbage "notatimestamp", []⟩).queries
      = [] ∧
    (articles_fetch gwEmpty okAll 10
        ⟨.garbage "notatimestamp", []⟩).outcome.raisesException = true ∧
    (articles_fetch gwEmpty okAll 10 ⟨.absent, []⟩).outcome
      = .noArticlesFound := by
  exact ⟨rfl, rfl, rfl, rfl⟩

/-- Claim C7: with a parsed checkpoint `t`, the run sends exactly the
query with lower bound `t + 1`, and — provided the gateway honours the
bound — no returned article was published exactly at `t`. -/
theorem since_query_excludes_boundary (gw : Gateway) (ok : String → Bool)
    (first : Nat) (s : FsState) (t : Int) (i : String)
    (hid : gw.my_id = some i)
    (hcp : s.checkpointFile = .stamp t)
    (hgw : ∀ a ∈ gw.articles_since (t + 1), t + 1 ≤ a.publication_date) :
    (articles_fetch gw ok first s).queries = [.since (t + 1)] ∧
    ∀ a ∈ gw.articles_since (t + 1), a.publication_date ≠ t := by
  constructor
  · cases hb : gw.articles_since (t + 1) with
    | nil => simp [articles_fetch, hid, hcp, hb]
    | cons a rest =>
      have he := articles_fetch_eq_runSync gw ok first s i (.since (t + 1))
        a rest hid (by simp [derivedQuery, hcp]) hb
      rw [he]
      rcases hd : downloadAll ok (a :: rest) with ⟨f, files, calls⟩
      rcases f with _ | p <;> simp [runSync, hd]
  · intro a ha
    have hle := hgw a ha
    omega

/-- Claim C7 witness: with checkpoint 5 the concrete run issues exactly
the since-6 query, and the article returned (published at 6) is not the
boundary article published at 5. -/
theorem since_query_excludes_boundary_witness :
    (articles_fetch gwOne okAll 10 ⟨.stamp 5, [] ⟩).queries
      = [.since 6] ∧
    ∀ a ∈ gwOne.articles_since 6, a.publication_date ≠ 5 := by
  exact since_query_excludes_boundary gwOne okAll 10 ⟨.stamp 5, []⟩ 5 "member"
    rfl rfl
    (by intro a ha
        simp only [gwOne, List.mem_singleton] at ha
        simp [ha])

/-- Claim C8: when the gateway returns an empty batch for the derived
scope, the run returns normally (no exception), with the filesystem
state untouched and no CDN calls; the outcome is one of the two
empty-batch reports. -/
theorem empty_batch_no_effect (gw : Gateway) (ok : String → Bool)
    (first : Nat) (s : FsState) (q : Query) (i : String)
    (hid : gw.my_id = some i)
    (hq : derivedQuery s first = some q)
    (hempty : gw.run q = []) :
    (articles_fetch gw ok first s).state = s ∧
    (articles_fetch gw ok first s).cdnCalls = [] ∧
    (articles_fetch gw ok first s).outcome.raisesException = false ∧
    ((articles_fetch gw ok first s).outcome = .noArticlesFound ∨
      ∃ t, (articles_fetch gw ok first s).outcome = .noNewArticles t) := by
  cases hcp : s.checkpointFile with
  | stamp t =>
    have hq2 : q = Query.since (t + 1) := by
      simp [derivedQuery, hcp] at hq; exact hq.symm
    subst hq2
    have hb : gw.articles_since (t + 1) = [] := hempty
    refine ⟨?_, ?_, ?_, Or.inr ⟨t, ?_⟩⟩ <;>
      simp [articles_fetch, hid, hcp, hb, FetchOutcome.raisesException]
  | garbage raw => simp [derivedQuery, hcp] at hq
  | absent =>
    have hq2 : q = Query.lastN first := by
      simp [derivedQuery, hcp] at hq; exact hq.symm
    subst hq2
    have hb : gw.last_articles first = [] := hempty
    refine ⟨?_, ?_, ?_, Or.inl ?_⟩ <;>
      simp [articles_fetch, hid, hcp, hb, FetchOutcome.raisesException]
  | unreadable =>
    have hq2 : q = Query.lastN first := by
      simp [derivedQuery, hcp] at hq; exact hq.symm
    subst hq2
    have hb : gw.last_articles first = [] := hempty
    refine ⟨?_, ?_, ?_, Or.inl ?_⟩ <;>
      simp [articles_fetch, hid, hcp, hb, FetchOutcome.raisesException]

/-- Claim C8 witness: with checkpoint 5 and a gateway that has nothing
new, the concrete run changes nothing, calls no CDN, raises nothing, and
reports "no new articles". -/
theorem empty_batch_no_effect_witness :
    (articles_fetch gwEmpty okAll 10 ⟨.stamp 5, []⟩).state
      = ⟨.stamp 5, []⟩ ∧
    (articles_fetch gwEmpty okAll 10 ⟨.stamp 5, []⟩).cdnCalls = [] ∧
    (articles_fetch gwEmpty okAll 10
        ⟨.stamp 5, []⟩).outcome.raisesException = false ∧
    ((articles_fetch gwEmpty okAll 10 ⟨.stamp 5, []⟩).outcome
        = .noArticlesFound ∨
      ∃ t, (articles_fetch gwEmpty okAll 10 ⟨.stamp 5, []⟩).outcome
        = .noNewArticles t) := by
  exact empty_batch_no_effect gwEmpty okAll 10 ⟨.stamp 5, []⟩ (.since 6)
    "member" rfl rfl rfl

/-- Claim C9: starting from a stored checkpoint `t`, if the gateway
honours since-query lower bounds and the run finishes normally, the
checkpoint written back is some `t2` with `t ≤ t2`: the checkpoint is
monotonically non-decreasing across successful runs. -/
theorem checkpoint_monotone (gw : Gateway) (ok : String → Bool)
    (first : Nat) (s : FsState) (t : Int)
    (hcp : s.checkpointFile = .stamp t)
    (hgw : ∀ q a, a ∈ gw.articles_since q → q ≤ a.publication_date)
    (hdone : (articles_fetch gw ok first s).outcome = .done) :
    ∃ t2, (articles_fetch gw ok first s).state.checkpointFile = .stamp t2
      ∧ t ≤ t2 := by
  cases hid : gw.my_id with
  | none => simp [articles_fetch, hid] at hdone
  | some i =>
    cases hb : gw.articles_since (t + 1) with
    | nil => simp [articles_fetch, hid, hcp, hb] at hdone
    | cons a rest =>
      have he := articles_fetch_eq_runSync gw ok first s i (.since (t + 1))
        a rest hid (by simp [derivedQuery, hcp]) hb
      rw [he] at hdone ⊢
      by_cases hall : ∀ x ∈ a :: rest, ok x.path = true
      · have hr := runSync_all_ok ok a rest s [.since (t + 1)] hall
        refine ⟨a.publication_date, hr.2, ?_⟩
        have hmem : a ∈ gw.articles_since (t + 1) := by
          rw [hb]; exact List.mem_cons_self a rest
        have := hgw (t + 1) a hmem
        omega
      · rcases (runSync_not_all_ok ok a rest s [.since (t + 1)] hall).1
          with ⟨p, hp⟩
        rw [hdone] at hp
        exact absurd hp (by simp)

/-- Claim C9 witness: a concrete successful run from checkpoint 5
against a bound-honouring gateway writes checkpoint 6 ≥ 5. -/
theorem checkpoint_monotone_witness :
    ∃ t2, (articles_fetch gwOne okAll 10
        ⟨.stamp 5, []⟩).state.checkpointFile = .stamp t2 ∧ (5 : Int) ≤ t2 := by
  exact checkpoint_monotone gwOne okAll 10 ⟨.stamp 5, []⟩ 5 rfl
    (by intro q a ha
        simp only [gwOne, List.mem_singleton] at ha
        simp [ha])
    rfl

/-- Claim C10: a fully successful bootstrap run (checkpoint file absent
or unreadable, non-empty last-N batch, all downloads succeeding) ends
normally, leaves the checkpoint file holding the first article's
publication date, and a following run derives the incremental since
query rather than the bootstrap one. -/
theorem bootstrap_writes_checkpoint (gw : Gateway) (ok : String → Bool)
    (first : Nat) (s : FsState) (a : ArticleData)
    (rest : List ArticleData) (i : String)
    (hid : gw.my_id = some i)
    (hcp : s.checkpointFile = .absent ∨ s.checkpointFile = .unreadable)
    (hbatch : gw.last_articles first = a :: rest)
    (hok : ∀ x ∈ a :: rest, ok x.path = true) :
    (articles_fetch gw ok first s).outcome = .done ∧
    (articles_fetch gw ok first s).state.checkpointFile
      = .stamp a.publication_date ∧
    ∀ n, derivedQuery (articles_fetch gw ok first s).state n
      = some (.since (a.publication_date + 1)) := by
  have hq : derivedQuery s first = some (.lastN first) := by
    rcases hcp with h | h <;> simp [derivedQuery, h]
  have he := articles_fetch_eq_runSync gw ok first s i (.lastN first)
    a rest hid hq hbatch
  rw [he]
  have hr := runSync_all_ok ok a rest s [.lastN first] hok
  exact ⟨hr.1, hr.2, fun n => by simp [derivedQuery, hr.2]⟩

/-- Claim C10 witness: a concrete bootstrap run with one article
published at 7 ends in `done`, stores checkpoint 7, and the next run
derives the since-8 query. -/
theorem bootstrap_writes_checkpoint_witness :
    (articles_fetch gwOne okAll 10 ⟨.absent, []⟩).outcome = .done ∧
    (articles_fetch gwOne okAll 10 ⟨.absent, []⟩).state.checkpointFile
      = .stamp articleA.publication_date ∧
    ∀ n, derivedQuery (articles_fetch gwOne okAll 10 ⟨.absent, []⟩).state n
      = some (.since (articleA.publication_date + 1)) := by
  exact bootstrap_writes_checkpoint gwOne okAll 10 ⟨.absent, []⟩ articleA []
    "member" rfl (Or.inl rfl) rfl (fun x _ => rfl)

/-! ## Claim theorems for the api client -/

/-- Claim C4 (counterexample): right after a successful challenge
request — before any identity probe has confirmed anything — the `token`
accessor returns the held secret instead of failing, exactly as
`token_get` prints it on cli.py line 64. -/
theorem token_exposed_before_confirmation :
    (RepublikApi.request_token apiFresh respGood).2
      = .ok { verification_phrase := "magic words"
              token_type := .App
              expiration_date := 100 } ∧
    ((RepublikApi.request_token apiFresh respGood).1).token
      = .ok "secret" := by
  exact ⟨rfl, rfl⟩

/-- Claim C4 (amended): the `token` accessor fails with the
no-credential `RuntimeError` exactly when no secret is held (no
challenge request has stored one); and whenever `request_token`
succeeds, the returned secret is the session cookie and the accessor
exposes it from then on — before any probe has confirmed it — provided
the cookie is non-empty. -/
theorem token_accessor_requires_set_token :
    (∀ api : RepublikApi,
      api.token = .error .runtimeError ↔ api._token = "") ∧
    (∀ (api : RepublikApi) (resp : SignInResponse) (d : TokenRequestData),
      (RepublikApi.request_token api resp).2 = .ok d →
      ∃ s, resp.connectSid = some s ∧
        ((RepublikApi.request_token api resp).1)._token = s ∧
        (s ≠ "" →
          ((RepublikApi.request_token api resp).1).token = .ok s)) := by
  constructor
  · intro api
    by_cases h : api._token = "" <;> simp [RepublikApi.token, h]
  · intro api resp d h
    obtain ⟨tf, sok, sid, hsd, ph, ea, tt⟩ := resp
    cases tf
    · cases sok
      · simp [RepublikApi.request_token] at h
      · cases sid with
        | none => simp [RepublikApi.request_token] at h
        | some s =>
          cases hsd
          · simp [RepublikApi.request_token] at h
          · cases ea with
            | none => simp [RepublikApi.request_token] at h
            | some ts =>
              cases ts with
              | invalid raw =>
                simp [RepublikApi.request_token, parsePendulum] at h
              | valid tv =>
                cases tt with
                | none =>
                  simp [RepublikApi.request_token, parsePendulum] at h
                | some k =>
                  cases hk : TokenType.ofValue k with
                  | none =>
                    simp [RepublikApi.request_token, parsePendulum, hk] at h
                  | some ty =>
                    cases ph with
                    | none =>
                      simp [RepublikApi.request_token, parsePendulum, hk] at h
                    | some p =>
                      refine ⟨s, rfl, ?_, ?_⟩
                      · simp [RepublikApi.request_token, parsePendulum, hk]
                      · intro hs
                        simp [RepublikApi.request_token, parsePendulum, hk,
                          RepublikApi.token, hs]
    · simp [RepublikApi.request_token] at h

/-- Claim C4 (amended) witness: the concrete successful request stores
the cookie "secret" and the accessor returns it before any probe. -/
theorem token_accessor_requires_set_token_witness :
    ((RepublikApi.request_token apiFresh respGood).1).token
      = Except.ok "secret" := by
  obtain ⟨s, hs, ht, hok⟩ := token_accessor_requires_set_token.2 apiFresh
    respGood
    { verification_phrase := "magic words"
      token_type := .App
      expiration_date := 100 } rfl
  have hss : s = "secret" := by
    have h2 := hs
    simp [respGood] at h2
    exact h2.symm
  subst hss
  exact hok (by decide)

/-- Claim C5 (counterexample): a response whose token kind string is
present but unrecognized makes `request_token` raise an uncaught
`ValueError` — not a `TokenFetchError` — because the `try` around
`TokenType(...)` catches only `KeyError`. -/
theorem request_token_unknown_kind_not_fetch_error :
    (RepublikApi.request_token apiFresh respBogusKind).2
      = .error .valueError ∧
    isTokenFetchError (RepublikApi.request_token apiFresh respBogusKind).2
      = false := by
  exact ⟨rfl, rfl⟩

/-- Claim C5 (amended): `request_token` raises `TokenFetchError` exactly
for a missing session cookie, a missing signIn data shape, and a missing
tokenType key; a transport-level failure (including a non-success HTTP
status) raises a transport error instead, and a present-but-unrecognized
token kind string raises a `ValueError` — though the legacy
`TokenDispenser.request` does map that case to `TokenFetchError`. -/
theorem request_token_error_taxonomy :
    (∀ (api : RepublikApi) (resp : SignInResponse),
      resp.transportFail = true →
      (RepublikApi.request_token api resp).2 = .error .transportError) ∧
    (∀ (api : RepublikApi) (resp : SignInResponse),
      resp.transportFail = false → resp.statusOk = false →
      (RepublikApi.request_token api resp).2 = .error .transportError) ∧
    (∀ (api : RepublikApi) (resp : SignInResponse),
      resp.transportFail = false → resp.statusOk = true →
      resp.connectSid = none →
      (RepublikApi.request_token api resp).2
        = .error (.tokenFetchError "connect.sid")) ∧
    (∀ (api : RepublikApi) (resp : SignInResponse) (s : String),
      resp.transportFail = false → resp.statusOk = true →
      resp.connectSid = some s → resp.hasSignInData = false →
      (RepublikApi.request_token api resp).2
        = .error (.tokenFetchError "signIn")) ∧
    (∀ (api : RepublikApi) (resp : SignInResponse) (s : String) (t : Int),
      resp.transportFail = false → resp.statusOk = true →
      resp.connectSid = some s → resp.hasSignInData = true →
      resp.expiresAt = some (.valid t) → resp.tokenType = none →
      (RepublikApi.request_token api resp).2
        = .error (.tokenFetchError "tokenType")) ∧
    (∀ (api : RepublikApi) (resp : SignInResponse) (s k : String) (t : Int),
      resp.transportFail = false → resp.statusOk = true →
      resp.connectSid = some s → resp.hasSignInData = true →
      resp.expiresAt = some (.valid t) → resp.tokenType = some k →
      TokenType.ofValue k = none →
      (RepublikApi.request_token api resp).2 = .error .valueError) ∧
    (∀ (d : TokenDispenser) (resp : SignInResponse) (s k : String) (t : Int),
      resp.transportFail = false → resp.statusOk = true →
      resp.connectSid = some s → resp.hasSignInData = true →
      resp.expiresAt = some (.valid t) → resp.tokenType = some k →
      TOKEN_STRING_TO_ENUM k = none →
      (TokenDispenser.request d resp).2
        = .error (.tokenFetchError "tokenType")) := by
  refine ⟨?_, ?_, ?_, ?_, ?_, ?_, ?_⟩
  · intro api resp h1
    simp [RepublikApi.request_token, h1]
  · intro api resp h1 h2
    simp [RepublikApi.request_token, h1, h2]
  · intro api resp h1 h2 h3
    simp [RepublikApi.request_token, h1, h2, h3]
  · intro api resp s h1 h2 h3 h4
    simp [RepublikApi.request_token, h1, h2, h3, h4]
  · intro api resp s t h1 h2 h3 h4 h5 h6
    simp [RepublikApi.request_token, h1, h2, h3, h4, h5, h6, parsePendulum]
  · intro api resp s k t h1 h2 h3 h4 h5 h6 h7
    simp [RepublikApi.request_token, h1, h2, h3, h4, h5, h6, h7,
      parsePendulum]
  · intro d resp s k t h1 h2 h3 h4 h5 h6 h7
    simp [TokenDispenser.request, h1, h2, h3, h4, h5, h6, h7, parsePendulum]

/-- Claim C5 (amended) witness: on the concrete response missing the
session cookie, `request_token` raises the challenge-fetch error. -/
theorem request_token_error_taxonomy_witness :
    (RepublikApi.request_token apiFresh respNoCookie).2
      = .error (.tokenFetchError "connect.sid") := by
  exact request_token_error_taxonomy.2.2.1 apiFresh respNoCookie rfl rfl rfl

end Repyblik
